import Mathlib

set_option maxRecDepth 8192

/-!
Verification of the mozi cron scheduler's executor, delivery fabric and cron
tool facade (TypeScript sources `src/outbound/index.ts`, `src/cron/executor.ts`,
`src/tools/builtin/cron.ts`) as a shallow embedding in Lean.

Modelling conventions:
* JavaScript optional fields become `Option`; JS truthiness on an optional
  string (`if (!s)`) is `strTruthy` (false for `undefined` and `""`), and on an
  optional number (`if (!n)`) is `numTruthy` (false for `undefined` and `0`).
* Thrown exceptions are modelled with `Except String`, carrying the message.
* The behaviour of the channel registry / network on each attempt is an
  explicit environment value (`ChannelBeh`), universally quantified in the
  theorems; likewise the agent callback (`AgentBeh`).
* Calls to effectful collaborators (`channel.sendMessage`,
  `deliverOutboundPayloads`) are instrumented: functions additionally return
  the list of invocations they performed, in order.
-/

namespace Mozi

/-! ## Delivery fabric (`src/outbound/index.ts`) -/

/-- Model of `DeliveryTarget` from the source: `{ channel, to, accountId? }`. -/
structure DeliveryTarget where
  channel : String
  «to» : String
  accountId : Option String := none
deriving DecidableEq, Repr

/-- Model of `DeliveryPayload` from the source: `{ text, mediaUrls?, replyToId? }`. -/
structure DeliveryPayload where
  text : String
  mediaUrls : Option (List String) := none
  replyToId : Option String := none
deriving DecidableEq, Repr

instance : Inhabited DeliveryPayload := ⟨{ text := "" }⟩

/-- The value returned by a channel's `sendMessage`. -/
structure SendResult where
  success : Bool
  messageId : Option String := none
  error : Option String := none
deriving DecidableEq, Repr

/-- Observed behaviour of the channel registry and channel for one
`deliverMessage` attempt: `getChannel` returns nothing, or the channel's
`sendMessage` returns a `SendResult`, or `sendMessage` throws. -/
inductive ChannelBeh where
  | missing : ChannelBeh
  | sends : SendResult → ChannelBeh
  | throws : String → ChannelBeh
deriving DecidableEq, Repr

/-- Model of `DeliveryResult` from the source (the opaque `errorDetails` is omitted). -/
structure DeliveryResult where
  success : Bool
  channel : String
  messageId : Option String := none
  error : Option String := none
deriving DecidableEq, Repr

instance : Inhabited DeliveryResult := ⟨{ success := false, channel := "" }⟩

/-- Model of `deliverMessage` from the source. The whole body is wrapped in
`try/catch`: a lookup miss throws when not best-effort, a failed send throws
`result.error ?? "Unknown error"` when not best-effort, and the catch block
rethrows when not best-effort, otherwise converts the exception into a failed
result. `Except.error` models an exception escaping the call. -/
def deliverMessage (beh : ChannelBeh) (target : DeliveryTarget)
    (_payload : DeliveryPayload) (bestEffort : Bool) : Except String DeliveryResult :=
  match beh with
  | .missing =>
      let error := "Channel not found: " ++ target.channel
      if !bestEffort then .error error
      else .ok { success := false, channel := target.channel, error := some error }
  | .sends result =>
      if result.success then
        .ok { success := true, channel := target.channel, messageId := result.messageId }
      else if !bestEffort then .error (result.error.getD "Unknown error")
      else .ok { success := false, channel := target.channel, error := result.error }
  | .throws m =>
      if !bestEffort then .error m
      else .ok { success := false, channel := target.channel, error := some m }

/-- The synthetic result pushed by `deliverMessages` when the abort signal has
fired: `{ success: false, channel, error: "Aborted" }`. -/
def abortedResult (channelId : String) : DeliveryResult :=
  { success := false, channel := channelId, error := some "Aborted" }

/-- The single result recorded by one loop iteration of `deliverMessages` for
an attempted payload: the result of `deliverMessage` with `bestEffort: true`,
or (catch branch) a failed result built from the exception message. -/
def attemptResult (beh : ChannelBeh) (target : DeliveryTarget)
    (payload : DeliveryPayload) : DeliveryResult :=
  match deliverMessage beh target payload true with
  | .ok result => result
  | .error m => { success := false, channel := target.channel, error := some m }

/-- The loop of `deliverMessages`. `beh i` is the registry/channel behaviour
for the i-th attempt, `abortObs i` the value of `abortSignal.aborted` observed
at the start of the i-th iteration. Returns the result list together with the
list of payloads for which `deliverMessage` was invoked (the attempted
payloads), in order. -/
def deliverMessagesGo (beh : Nat → ChannelBeh) (abortObs : Nat → Bool)
    (target : DeliveryTarget) (bestEffort : Bool) :
    Nat → List DeliveryPayload → List DeliveryResult × List DeliveryPayload
  | _, [] => ([], [])
  | i, payload :: rest =>
      if abortObs i then ([abortedResult target.channel], [])
      else
        match deliverMessage (beh i) target payload true with
        | .ok result =>
            if !result.success && !bestEffort then ([result], [payload])
            else
              let next := deliverMessagesGo beh abortObs target bestEffort (i + 1) rest
              (result :: next.1, payload :: next.2)
        | .error m =>
            let failed : DeliveryResult :=
              { success := false, channel := target.channel, error := some m }
            if !bestEffort then ([failed], [payload])
            else
              let next := deliverMessagesGo beh abortObs target bestEffort (i + 1) rest
              (failed :: next.1, payload :: next.2)

/-- Model of `deliverMessages` from the source: sequential loop over the payloads,
checking the abort signal first each iteration, always calling
`deliverMessage` with `bestEffort: true`, stopping after a failed result
unless `bestEffort`. -/
def deliverMessages (beh : Nat → ChannelBeh) (abortObs : Nat → Bool)
    (target : DeliveryTarget) (payloads : List DeliveryPayload)
    (bestEffort : Bool) : List DeliveryResult × List DeliveryPayload :=
  deliverMessagesGo beh abortObs target bestEffort 0 payloads

/-- Model of `deliverOutboundPayloads` from the source: empty payload list short-cut,
otherwise `deliverMessages` on the assembled target. -/
def deliverOutboundPayloads (beh : Nat → ChannelBeh) (abortObs : Nat → Bool)
    (channel : String) («to» : String) (accountId : Option String)
    (payloads : List DeliveryPayload) (bestEffort : Bool) :
    List DeliveryResult × List DeliveryPayload :=
  if payloads.length = 0 then ([], [])
  else deliverMessages beh abortObs
    { channel := channel, «to» := «to», accountId := accountId } payloads bestEffort

/-! ## Cron executor (`src/cron/executor.ts`) -/

/-- JS truthiness of an optional string: `undefined` and `""` are falsy. -/
def strTruthy : Option String -> Bool
  | none => false
  | some v => v != ""

/-- JS truthiness of an optional number: `undefined` and `0` are falsy. -/
def numTruthy (n : Option Int) : Bool :=
  match n with
  | none => false
  | some v => v != 0

/-- Execution status of a cron job (`CronExecutionResult.status`). -/
inductive CronStatus where
  | ok : CronStatus
  | error : CronStatus
  | skipped : CronStatus
deriving DecidableEq, Repr

/-- Model of `CronExecutionResult` from the source. -/
structure CronExecutionResult where
  status : CronStatus
  error : Option String := none
  summary : Option String := none
  outputText : Option String := none
deriving DecidableEq, Repr

/-- Observed behaviour of the `agentExecutor` callback for one invocation:
it either throws, or returns `{ success, output, error? }`. -/
inductive AgentBeh where
  | throws : String → AgentBeh
  | returns : Bool → String → Option String → AgentBeh
deriving DecidableEq, Repr

/-- One recorded invocation of `deliverOutboundPayloads` made by the
executor, with the arguments it was given. -/
structure DeliveryCall where
  channel : String
  «to» : String
  payloads : List DeliveryPayload
  bestEffort : Bool
deriving DecidableEq, Repr

/-- The `agentTurn` payload variant:
`{ message, model?, timeoutSeconds?, deliver?, channel?, to? }`. -/
structure PayloadAgentTurn where
  message : String
  model : Option String := none
  timeoutSeconds : Option Int := none
  deliver : Option Bool := none
  channel : Option String := none
  «to» : Option String := none
deriving DecidableEq, Repr

/-- Model of `CronPayload`: tagged union with a catch-all for the runtime `default`
switch branch of `executeJob` (a payload whose kind is outside the union). -/
inductive CronPayload where
  | systemEvent : String → CronPayload
  | agentTurn : PayloadAgentTurn → CronPayload
  | unknownKind : String → CronPayload
deriving DecidableEq, Repr

/-- Model of `CronSchedule`: tagged union `at { atMs } | every { everyMs } | cron
{ expr, tz? }`. -/
inductive CronSchedule where
  | «at» : Int → CronSchedule
  | every : Int → CronSchedule
  | cron : String → Option String → CronSchedule
deriving DecidableEq, Repr

/-- The fields of a `CronJob` that the executor and the tools read. -/
structure CronJob where
  id : String
  name : String
  enabled : Bool
  schedule : CronSchedule
  payload : CronPayload
deriving DecidableEq, Repr

/-- The environment of one `executeJob` run: the configured options of
`createCronExecutor` (`agentExecutor?`, `defaultChannel?`) together with the
observed behaviour of the collaborators — `agent` is `none` when no
`agentExecutor` is configured, `available` is `isChannelAvailable`, and
`deliverBeh` is what `deliverOutboundPayloads` does when invoked
(`Except.error` = it throws). -/
structure ExecEnv where
  agent : Option AgentBeh
  defaultChannel : Option String := none
  available : String → Bool
  deliverBeh : DeliveryCall → Except String (List DeliveryResult)

/-- The valid channel list of `resolveChannel` in the executor. -/
def validChannels : List String :=
  ["dingtalk", "feishu", "qq", "wecom", "webchat"]

/-- Model of `resolveChannel` from the source: a falsy (`undefined`/`""`) or `"last"`
channel resolves to `defaultChannel ?? null`; a member of `validChannels`
passes through; anything else resolves to `null`. -/
def resolveChannel (defaultChannel : Option String) (channel : Option String) :
    Option String :=
  if !strTruthy channel || channel.getD "" == "last" then defaultChannel
  else if validChannels.contains (channel.getD "") then channel
  else none

/-- Model of `deliverAgentOutput` from the source, instrumented to return the list of
`deliverOutboundPayloads` invocations it makes. Guards in order: falsy `to`,
unresolvable channel (the JS `!channelId` check is falsy on `null` and `""`),
unavailable channel — each skips delivery (log only). Otherwise it invokes
delivery with `bestEffort: true` and the single payload `{ text: outputText }`;
the `try/catch` swallows a delivery exception, and the results are only used
for logging. -/
def deliverAgentOutput (env : ExecEnv) (_job : CronJob)
    (payload : PayloadAgentTurn) (outputText : String) : List DeliveryCall :=
  if !strTruthy payload.«to» then []
  else
    let channelId := resolveChannel env.defaultChannel payload.channel
    if !strTruthy channelId then []
    else if !env.available (channelId.getD "") then []
    else
      let call : DeliveryCall :=
        { channel := channelId.getD "", «to» := payload.«to».getD "",
          payloads := [{ text := outputText }], bestEffort := true }
      match env.deliverBeh call with
      | .ok _ => [call]
      | .error _ => [call]

/-- Model of `executeAgentTurn` from the source, instrumented with the delivery calls:
no configured executor → `skipped`; callback throws → `error` with the
message; callback `success: false` → `error` with `error ?? "Agent execution
failed"` and the output, no delivery; otherwise deliver when
`deliver && to` is truthy and return the `ok` result with the first 200
characters of the output as summary. -/
def executeAgentTurn (env : ExecEnv) (job : CronJob)
    (payload : PayloadAgentTurn) : CronExecutionResult × List DeliveryCall :=
  match env.agent with
  | none =>
      ({ status := .skipped, summary := some "No agent executor configured" }, [])
  | some (.throws m) =>
      ({ status := .error, error := some m }, [])
  | some (.returns success output err) =>
      if !success then
        ({ status := .error, error := some (err.getD "Agent execution failed"),
           outputText := some output }, [])
      else
        let outputText := output
        let calls :=
          if (payload.deliver.getD false) && strTruthy payload.«to» then
            deliverAgentOutput env job payload outputText
          else []
        ({ status := .ok, summary := some (outputText.take 200),
           outputText := some outputText }, calls)

/-- Model of `executeJob` from the source: dispatch on the payload kind
(`systemEvent` logs only, `agentTurn` runs the agent, the `default` branch
reports the unknown kind), instrumented with the delivery calls made. -/
def executeJob (env : ExecEnv) (job : CronJob) :
    CronExecutionResult × List DeliveryCall :=
  match job.payload with
  | .systemEvent _ =>
      ({ status := .ok, summary := some "System event executed" }, [])
  | .agentTurn payload => executeAgentTurn env job payload
  | .unknownKind kind =>
      ({ status := .error, error := some ("Unknown payload kind: " ++ kind) }, [])

end Mozi

namespace Mozi

/-! ## Cron tool facade (`src/tools/builtin/cron.ts`) -/

/-- The `TIME_CONSTANTS` unit factors used by the `every` shorthand. -/
def unitFactor : String -> Int
  | "seconds" => 1000
  | "minutes" => 60000
  | "hours" => 3600000
  | "days" => 86400000
  | _ => 0

/-- A rendered tool result: the text block and the `isError` flag. -/
structure ToolResult where
  text : String
  isError : Bool
deriving DecidableEq, Repr

/-- Model of `CronJobCreate`: the argument handed to `service.add`. -/
structure CronJobCreate where
  name : String
  schedule : CronSchedule
  payload : CronPayload
deriving DecidableEq, Repr

/-- The arguments of the `cron_add` tool, per its TypeBox schema
(`scheduleType` and `everyUnit` and `payloadType` are schema-validated closed
unions, modelled as the corresponding strings being drawn from those sets by
the callers; here they stay strings to match the source's handling). -/
structure CronAddArgs where
  name : String
  scheduleType : String
  atTime : Option String := none
  everyMs : Option Int := none
  everyUnit : Option String := none
  everyValue : Option Int := none
  cronExpr : Option String := none
  cronTz : Option String := none
  message : String
  payloadType : Option String := none
  deliver : Option Bool := none
  channel : Option String := none
  «to» : Option String := none
  model : Option String := none
  timeoutSeconds : Option Int := none
deriving DecidableEq, Repr

/-- An `isError` tool result. -/
def errText (s : String) : ToolResult :=
  { text := s, isError := true }

/-- The valid channel list of the `cron_add` validation (includes `"last"`). -/
def cronToolValidChannels : List String :=
  ["dingtalk", "feishu", "qq", "wecom", "webchat", "last"]

/-- The schedule-building `switch` of the `cron_add` tool. `parseDate` models
`new Date(s).getTime()` (`none` = `NaN`); `cronValidate` models
`validateCronExpr` (`none` = valid, `some e` = invalid with error `e`). -/
def cronAddBuildSchedule (parseDate : String -> Option Int)
    (cronValidate : String -> Option String) (args : CronAddArgs) :
    Except ToolResult CronSchedule :=
  match args.scheduleType with
  | "at" =>
      if !strTruthy args.atTime then
        .error (errText "错误: at 类型任务需要提供 atTime 参数")
      else
        match parseDate (args.atTime.getD "") with
        | none => .error (errText "错误: atTime 格式无效")
        | some atMs => .ok (.«at» atMs)
  | "every" =>
      let intervalMs : Option Int :=
        if !numTruthy args.everyMs && args.everyUnit.isSome && numTruthy args.everyValue
        then some (args.everyValue.getD 0 * unitFactor (args.everyUnit.getD ""))
        else args.everyMs
      if !numTruthy intervalMs || intervalMs.getD 0 <= 0 then
        .error (errText "错误: every 类型任务需要提供有效的间隔时间")
      else .ok (.every (intervalMs.getD 0))
  | "cron" =>
      if !strTruthy args.cronExpr then
        .error (errText "错误: cron 类型任务需要提供 cronExpr 参数")
      else
        match cronValidate (args.cronExpr.getD "") with
        | some e => .error (errText ("错误: Cron 表达式无效 - " ++ e))
        | none => .ok (.cron (args.cronExpr.getD "") args.cronTz)
  | other => .error (errText ("错误: 未知的调度类型 " ++ other))

/-- The `execute` function of the `cron_add` tool: build the schedule, then
validate the payload (for `agentTurn`: `deliver` requires truthy `channel` and
`to`; a truthy `channel` must be in `cronToolValidChannels`; a supplied
`timeoutSeconds` must lie in [1, 600]), then hand the job to `service.add`.
The second component is the `CronJobCreate` passed to `service.add` (`none`
when the tool returns without persisting anything); the success text rendering
of the created job is elided. -/
def cronAddExecute (parseDate : String -> Option Int)
    (cronValidate : String -> Option String) (args : CronAddArgs) :
    ToolResult × Option CronJobCreate :=
  match cronAddBuildSchedule parseDate cronValidate args with
  | .error r => (r, none)
  | .ok schedule =>
      if args.payloadType.getD "systemEvent" == "agentTurn" then
        if (args.deliver.getD false)
            && (!strTruthy args.channel || !strTruthy args.«to») then
          (errText "错误: agentTurn 任务启用 deliver 时需要提供 channel 和 to 参数", none)
        else if strTruthy args.channel
            && !cronToolValidChannels.contains (args.channel.getD "") then
          (errText ("错误: 无效的通道 " ++ args.channel.getD ""), none)
        else if args.timeoutSeconds.isSome
            && (args.timeoutSeconds.getD 0 < 1 || args.timeoutSeconds.getD 0 > 600) then
          (errText "错误: timeoutSeconds 必须在 1-600 秒之间", none)
        else
          let payload : CronPayload := .agentTurn
            { message := args.message, model := args.model,
              timeoutSeconds := args.timeoutSeconds, deliver := args.deliver,
              channel := args.channel, «to» := args.«to» }
          ({ text := "定时任务已创建", isError := false },
           some { name := args.name, schedule := schedule, payload := payload })
      else
        ({ text := "定时任务已创建", isError := false },
         some { name := args.name, schedule := schedule,
                payload := .systemEvent args.message })

/-- The arguments of the `cron_update` tool, per its TypeBox schema: only
`jobId`, `name` and `enabled` exist. -/
structure CronUpdateArgs where
  jobId : String
  name : Option String := none
  enabled : Option Bool := none
deriving DecidableEq, Repr

/-- The patch accepted by the scheduler service's `update`. -/
structure CronServicePatch where
  name : Option String := none
  enabled : Option Bool := none
  schedule : Option CronSchedule := none
  payload : Option CronPayload := none
deriving DecidableEq, Repr

/-- Modelled from the spec: `CronService.update` (its source file is not in
the provided sources; spec section 4.G: "`update(id, patch) -> Job | ∅` —
permits mutating `name`, `enabled`, `schedule`, `payload`; recomputes
`nextRunAtMs`; emits `job.updated`"). It looks the job up by id, returns `∅`
for an unknown id, otherwise applies the supplied patch fields to the stored
job and returns the updated job. The recomputation of `nextRunAtMs` and the
event emission touch only the run-state, which is outside the modelled `CronJob`
fields. -/
def serviceUpdate (jobs : List CronJob) (id : String)
    (patch : CronServicePatch) : Option CronJob :=
  match jobs.find? (fun j => j.id == id) with
  | none => none
  | some job => some
      { job with
        name := patch.name.getD job.name,
        enabled := patch.enabled.getD job.enabled,
        schedule := patch.schedule.getD job.schedule,
        payload := patch.payload.getD job.payload }

/-- The `execute` function of the `cron_update` tool: collect the provided
fields into `updates` (only `name` and `enabled` are expressible, by presence,
not truthiness), reject an empty patch, call `service.update` and report.
The second component is the updated job returned by `service.update` (`none`
when nothing was updated). -/
def cronUpdateExecute (jobs : List CronJob) (args : CronUpdateArgs) :
    ToolResult × Option CronJob :=
  let updates : CronServicePatch := { name := args.name, enabled := args.enabled }
  if args.name.isNone && args.enabled.isNone then
    (errText "错误: 没有提供要更新的字段", none)
  else
    match serviceUpdate jobs args.jobId updates with
    | none => (errText ("错误: 找不到 ID 为 " ++ args.jobId ++ " 的任务"), none)
    | some job => ({ text := "定时任务已更新", isError := false }, some job)

/-! ## Concrete instances used by witnesses -/

/-- A concrete `cron_add` argument record: `agentTurn` with `deliver: true`
but no `to`. -/
def cronAddArgsNoTo : CronAddArgs :=
  { name := "t", scheduleType := "every", everyMs := some 1000,
    message := "hi", payloadType := some "agentTurn", deliver := some true,
    channel := some "feishu" }

/-- A stored job used to exercise `cron_update`. -/
def cronUpdateJob0 : CronJob :=
  { id := "a", name := "old", enabled := true, schedule := .every 1000,
    payload := .systemEvent "m" }

/-- Concrete abort signal for the C2 witness, first observed fired at the
second check. -/
def abortAfterOne : Nat -> Bool := fun i => decide (1 <= i)

/-- Concrete registry behaviour for the C2 witness: every send succeeds. -/
def behOk2 : Nat -> ChannelBeh :=
  fun _ => .sends { success := true, messageId := some "m-1" }

/-- Abort signal for the C3 witness: never fired. -/
def abortNever3 : Nat -> Bool := fun _ => false

/-- Registry behaviour for the C3 witness: the second send fails, the rest
succeed. -/
def behFail3 : Nat -> ChannelBeh := fun i =>
  if i = 1 then .sends { success := false, error := some "Failed" }
  else .sends { success := true, messageId := some "m" }

/-- Abort signal for the C10 witness: never fired. -/
def abortNever10 : Nat -> Bool := fun _ => false

/-- Registry behaviour for the C10 witness: every send succeeds. -/
def behOk10 : Nat -> ChannelBeh :=
  fun _ => .sends { success := true, messageId := some "m" }

/-! ## Theorems -/

/-- C1: for an `agentTurn` job whose agent callback returns `success: false`
with error `e` and output `output`, `executeJob` returns
`{ status: error, error: e, outputText: output }` and makes no
`deliverOutboundPayloads` invocation (the instrumented call list is empty). -/
theorem executeJob_agent_failure_suppresses_delivery
    (env : ExecEnv) (job : CronJob) (p : PayloadAgentTurn) (output e : String)
    (hpay : job.payload = .agentTurn p)
    (hagent : env.agent = some (.returns false output (some e))) :
    executeJob env job =
      ({ status := .error, error := some e, outputText := some output }, []) := by
  simp [executeJob, hpay, executeAgentTurn, hagent]

/-- Witness for C1: scenario S4 — the stub agent fails with
"Model unavailable"; the result is the error and no delivery happens. -/
theorem executeJob_agent_failure_suppresses_delivery_witness :
    ({ id := "j1", name := "n", enabled := true, schedule := .every 60000,
       payload := .agentTurn
         { message := "m", deliver := some true,
           channel := some "dingtalk", «to» := some "u1" } } : CronJob).payload =
      .agentTurn
        { message := "m", deliver := some true,
          channel := some "dingtalk", «to» := some "u1" } ∧
    ({ agent := some (.returns false "" (some "Model unavailable")),
       defaultChannel := some "dingtalk", available := fun _ => true,
       deliverBeh := fun _ => .ok [] } : ExecEnv).agent =
      some (.returns false "" (some "Model unavailable")) ∧
    executeJob
      { agent := some (.returns false "" (some "Model unavailable")),
        defaultChannel := some "dingtalk", available := fun _ => true,
        deliverBeh := fun _ => .ok [] }
      { id := "j1", name := "n", enabled := true, schedule := .every 60000,
        payload := .agentTurn
          { message := "m", deliver := some true,
            channel := some "dingtalk", «to» := some "u1" } } =
      ({ status := .error, error := some "Model unavailable",
         outputText := some "" }, []) :=
  ⟨rfl, rfl,
    executeJob_agent_failure_suppresses_delivery _ _ _ "" "Model unavailable" rfl rfl⟩

/-- C5: for an `agentTurn` job whose agent callback returns `success: true`
with output `output`, the result of `executeJob` is
`{ status: ok, summary: output.take 200, outputText: output }`. The
environment (`available`, `defaultChannel`, `deliverBeh`) and the payload's
delivery fields are universally quantified, so the returned result is the
same whether delivery was attempted, skipped, failed or threw. -/
theorem executeJob_success_result
    (env : ExecEnv) (job : CronJob) (p : PayloadAgentTurn) (output : String)
    (err : Option String)
    (hpay : job.payload = .agentTurn p)
    (hagent : env.agent = some (.returns true output err)) :
    (executeJob env job).1 =
      { status := .ok, summary := some (output.take 200),
        outputText := some output } := by
  simp [executeJob, hpay, executeAgentTurn, hagent]

/-- Witness for C5: a delivering job whose delivery throws still returns the
`ok` result with the 200-character summary. -/
theorem executeJob_success_result_witness :
    ({ id := "j2", name := "n", enabled := true, schedule := .every 60000,
       payload := .agentTurn
         { message := "m", deliver := some true,
           channel := some "feishu", «to» := some "u9" } } : CronJob).payload =
      .agentTurn
        { message := "m", deliver := some true,
          channel := some "feishu", «to» := some "u9" } ∧
    ({ agent := some (.returns true "hello" none), defaultChannel := none,
       available := fun _ => true,
       deliverBeh := fun _ => .error "boom" } : ExecEnv).agent =
      some (.returns true "hello" none) ∧
    (executeJob
      { agent := some (.returns true "hello" none), defaultChannel := none,
        available := fun _ => true, deliverBeh := fun _ => .error "boom" }
      { id := "j2", name := "n", enabled := true, schedule := .every 60000,
        payload := .agentTurn
          { message := "m", deliver := some true,
            channel := some "feishu", «to» := some "u9" } }).1 =
      { status := .ok, summary := some ("hello".take 200),
        outputText := some "hello" } :=
  ⟨rfl, rfl, executeJob_success_result _ _ _ "hello" none rfl rfl⟩

/-- The "last" sentinel resolves to the configured default channel. -/
theorem resolveChannel_last (d : Option String) :
    resolveChannel d (some "last") = d := rfl

/-- A member of the recognised channel set passes through resolution. -/
theorem resolveChannel_member (d : Option String) (c : String)
    (hc : validChannels.contains c = true) :
    resolveChannel d (some c) = some c := by
  have hmem : c ∈ validChannels := by simpa using hc
  simp only [validChannels, List.mem_cons, List.mem_singleton,
    List.not_mem_nil, or_false] at hmem
  rcases hmem with h | h | h | h | h <;> subst h <;> rfl

/-- Truthiness of a supplied string id. -/
theorem strTruthy_some (c : String) : strTruthy (some c) = (c != "") := rfl

/-- A non-empty id other than "last" outside the recognised set resolves to
none. -/
theorem resolveChannel_other (d : Option String) (c : String)
    (hne : c ≠ "") (hl : c ≠ "last") (hm : validChannels.contains c = false) :
    resolveChannel d (some c) = none := by
  have hmem : c ∉ validChannels := by simpa using hm
  simp [resolveChannel, strTruthy, hne, hl, hmem]

/-- When the target is truthy, the channel resolves to a non-empty available
id, `deliverAgentOutput` invokes delivery exactly once, with `bestEffort:
true` and the single payload `{ text: outputText }`. -/
theorem deliverAgentOutput_calls (env : ExecEnv) (job : CronJob)
    (p : PayloadAgentTurn) (out : String) (c : String)
    (hto : strTruthy p.«to» = true)
    (hres : resolveChannel env.defaultChannel p.channel = some c)
    (hc : c ≠ "") (hav : env.available c = true) :
    deliverAgentOutput env job p out =
      [{ channel := c, «to» := p.«to».getD "",
         payloads := [{ text := out }], bestEffort := true }] := by
  unfold deliverAgentOutput
  rw [hres]
  have hct : strTruthy (some c) = true := by simp [strTruthy, hc]
  simp only [hto, hct, Bool.not_true, Bool.false_eq_true, if_false,
    Option.getD_some, hav]
  split <;> rfl

/-- A falsy target, an unresolvable or empty channel id, or an unavailable
channel each make `deliverAgentOutput` skip delivery. -/
theorem deliverAgentOutput_skips (env : ExecEnv) (job : CronJob)
    (p : PayloadAgentTurn) (out : String)
    (h : strTruthy p.«to» = false
      ∨ resolveChannel env.defaultChannel p.channel = none
      ∨ resolveChannel env.defaultChannel p.channel = some ""
      ∨ ∃ c, resolveChannel env.defaultChannel p.channel = some c
          ∧ env.available c = false) :
    deliverAgentOutput env job p out = [] := by
  unfold deliverAgentOutput
  rcases h with h | h | h | ⟨c, hres, hav⟩
  · simp [h]
  · rw [h]; simp [strTruthy]
  · rw [h]; simp [strTruthy]
  · rw [hres]
    by_cases hc : c = ""
    · subst hc; simp [strTruthy]
    · have hct : strTruthy (some c) = true := by simp [strTruthy, hc]
      simp [hct, hav]

/-- C6: for an `agentTurn` job with a successful agent callback:
(1) channel resolution follows the rule "last" -> configured default, any
other id in the recognised set passes through, any other non-empty id
resolves to none (a missing or empty channel id is falsy in JS and behaves
like "last");
(2) delivery is invoked exactly when `deliver` is true, `to` is present
(a non-empty string) and the resolved id is a non-empty available channel —
if the resolved id is none or the channel is unavailable, delivery is
skipped;
(3) when invoked, delivery gets `bestEffort: true` and the single payload
`{ text: output }`. -/
theorem executeJob_delivery_resolution
    (env : ExecEnv) (job : CronJob) (p : PayloadAgentTurn) (output : String)
    (err : Option String)
    (hpay : job.payload = .agentTurn p)
    (hagent : env.agent = some (.returns true output err)) :
    (resolveChannel env.defaultChannel (some "last") = env.defaultChannel
      ∧ (∀ c, validChannels.contains c = true →
          resolveChannel env.defaultChannel (some c) = some c)
      ∧ (∀ c, c ≠ "" → c ≠ "last" → validChannels.contains c = false →
          resolveChannel env.defaultChannel (some c) = none))
    ∧ ((executeJob env job).2 ≠ [] ↔
        p.deliver.getD false = true ∧ strTruthy p.«to» = true ∧
          ∃ c, resolveChannel env.defaultChannel p.channel = some c
            ∧ c ≠ "" ∧ env.available c = true)
    ∧ (∀ c, p.deliver.getD false = true → strTruthy p.«to» = true →
        resolveChannel env.defaultChannel p.channel = some c → c ≠ "" →
        env.available c = true →
        (executeJob env job).2 =
          [{ channel := c, «to» := p.«to».getD "",
             payloads := [{ text := output }], bestEffort := true }]) := by
  have hcalls : (executeJob env job).2 =
      if (p.deliver.getD false) && strTruthy p.«to»
      then deliverAgentOutput env job p output else [] := by
    simp [executeJob, hpay, executeAgentTurn, hagent]
  refine ⟨⟨resolveChannel_last _, fun c hc => resolveChannel_member _ c hc,
      fun c h1 h2 h3 => resolveChannel_other _ c h1 h2 h3⟩, ?_, ?_⟩
  · rw [hcalls]
    constructor
    · intro hne
      by_cases hdel : p.deliver.getD false = true
      · by_cases hto : strTruthy p.«to» = true
        · refine ⟨hdel, hto, ?_⟩
          cases hres : resolveChannel env.defaultChannel p.channel with
          | none =>
              exact absurd (by
                simp only [hdel, hto, Bool.and_self, if_true]
                exact deliverAgentOutput_skips env job p output
                  (Or.inr (Or.inl hres))) hne
          | some c =>
              by_cases hc : c = ""
              · subst hc
                exact absurd (by
                  simp only [hdel, hto, Bool.and_self, if_true]
                  exact deliverAgentOutput_skips env job p output
                    (Or.inr (Or.inr (Or.inl hres)))) hne
              · cases hav : env.available c with
                | false =>
                    exact absurd (by
                      simp only [hdel, hto, Bool.and_self, if_true]
                      exact deliverAgentOutput_skips env job p output
                        (Or.inr (Or.inr (Or.inr ⟨c, hres, hav⟩)))) hne
                | true => exact ⟨c, rfl, hc, hav⟩
        · rw [Bool.not_eq_true] at hto
          simp [hto] at hne
      · rw [Bool.not_eq_true] at hdel
        simp [hdel] at hne
    · rintro ⟨hdel, hto, c, hres, hc, hav⟩
      rw [hdel, hto]
      simp only [Bool.and_self, if_true]
      rw [deliverAgentOutput_calls env job p output c hto hres hc hav]
      simp
  · intro c hdel hto hres hc hav
    rw [hcalls, hdel, hto]
    simp only [Bool.and_self, if_true]
    exact deliverAgentOutput_calls env job p output c hto hres hc hav

/-- Witness for C6: "last" with configured default "feishu" delivers the
single `{ text: "hello" }` payload best-effort to "feishu". -/
theorem executeJob_delivery_resolution_witness :
    ({ id := "j3", name := "n", enabled := true, schedule := .every 60000,
       payload := .agentTurn
         { message := "m", deliver := some true,
           channel := some "last", «to» := some "u1" } } : CronJob).payload =
      .agentTurn
        { message := "m", deliver := some true,
          channel := some "last", «to» := some "u1" } ∧
    ({ agent := some (.returns true "hello" none),
       defaultChannel := some "feishu", available := fun _ => true,
       deliverBeh := fun _ => .ok [] } : ExecEnv).agent =
      some (.returns true "hello" none) ∧
    (executeJob
      { agent := some (.returns true "hello" none),
        defaultChannel := some "feishu", available := fun _ => true,
        deliverBeh := fun _ => .ok [] }
      { id := "j3", name := "n", enabled := true, schedule := .every 60000,
        payload := .agentTurn
          { message := "m", deliver := some true,
            channel := some "last", «to» := some "u1" } }).2 =
      [{ channel := "feishu", «to» := "u1",
         payloads := [{ text := "hello" }], bestEffort := true }] := by
  refine ⟨rfl, rfl, ?_⟩
  exact (executeJob_delivery_resolution
    { agent := some (.returns true "hello" none),
      defaultChannel := some "feishu", available := fun _ => true,
      deliverBeh := fun _ => .ok [] }
    { id := "j3", name := "n", enabled := true, schedule := .every 60000,
      payload := .agentTurn
        { message := "m", deliver := some true,
          channel := some "last", «to» := some "u1" } }
    { message := "m", deliver := some true,
      channel := some "last", «to» := some "u1" }
    "hello" none rfl rfl).2.2 "feishu" rfl rfl rfl (by decide) rfl

/-- C9 (amended): `executeJob` is total: for every job (including one whose
payload kind is outside the union) and every behaviour of the agent callback
and of delivery (including thrown exceptions, `Except.error` in the
environment), it returns a result whose status is `ok`, `error` or `skipped`.
An exception thrown by the agent callback is converted into
`{ status: error, error: message }`, and an unknown payload kind yields
`{ status: error, error: "Unknown payload kind: …" }`; an exception thrown by
delivery is caught and swallowed, leaving the `ok` result unchanged. -/
theorem executeJob_total (env : ExecEnv) (job : CronJob) :
    ((executeJob env job).1.status = .ok ∨ (executeJob env job).1.status = .error
        ∨ (executeJob env job).1.status = .skipped)
    ∧ (∀ p m, job.payload = .agentTurn p → env.agent = some (.throws m) →
        (executeJob env job).1 = { status := .error, error := some m })
    ∧ (∀ kind, job.payload = .unknownKind kind →
        (executeJob env job).1 =
          { status := .error, error := some ("Unknown payload kind: " ++ kind) })
    ∧ (∀ p output err, job.payload = .agentTurn p →
        env.agent = some (.returns true output err) →
        (executeJob env job).1.status = .ok) := by
  refine ⟨?_, ?_, ?_, ?_⟩
  · cases h : (executeJob env job).1.status
    · exact Or.inl rfl
    · exact Or.inr (Or.inl rfl)
    · exact Or.inr (Or.inr rfl)
  · intro p m hpay hagent
    simp [executeJob, hpay, executeAgentTurn, hagent]
  · intro kind hpay
    simp [executeJob, hpay]
  · intro p output err hpay hagent
    simp [executeJob, hpay, executeAgentTurn, hagent]

/-- Witness for C9 (amended): an agent callback that throws "boom" yields the
error result with that message. -/
theorem executeJob_total_witness :
    ({ id := "j4", name := "n", enabled := true, schedule := .every 1000,
       payload := .agentTurn { message := "m" } } : CronJob).payload =
      .agentTurn { message := "m" } ∧
    ({ agent := some (.throws "boom"), available := fun _ => true,
       deliverBeh := fun _ => .ok [] } : ExecEnv).agent = some (.throws "boom") ∧
    (executeJob
      { agent := some (.throws "boom"), available := fun _ => true,
        deliverBeh := fun _ => .ok [] }
      { id := "j4", name := "n", enabled := true, schedule := .every 1000,
        payload := .agentTurn { message := "m" } }).1 =
      { status := .error, error := some "boom" } := by
  refine ⟨rfl, rfl, ?_⟩
  exact (executeJob_total
    { agent := some (.throws "boom"), available := fun _ => true,
      deliverBeh := fun _ => .ok [] }
    { id := "j4", name := "n", enabled := true, schedule := .every 1000,
      payload := .agentTurn { message := "m" } }).2.1
    { message := "m" } "boom" rfl rfl

/-- Counterexample to C9 as stated: with a successful agent and a delivery
behaviour that throws "boom", `executeJob` does invoke delivery (the call
list is non-empty, and per the environment that invocation throws), yet it
returns `{ status: ok, error: none }` — the delivery exception is not
converted into `{ status: error, error: "boom" }`. -/
theorem executeJob_delivery_throw_not_converted :
    (executeJob
      { agent := some (.returns true "done" none), defaultChannel := none,
        available := fun _ => true, deliverBeh := fun _ => .error "boom" }
      { id := "j5", name := "n", enabled := true, schedule := .every 1000,
        payload := .agentTurn
          { message := "m", deliver := some true,
            channel := some "feishu", «to» := some "u1" } }) =
      ({ status := .ok, summary := some "done", outputText := some "done" },
       [{ channel := "feishu", «to» := "u1",
          payloads := [{ text := "done" }], bestEffort := true }]) := rfl

/-- Every early return of the schedule-building switch is an `isError`
result. -/
theorem cronAddBuildSchedule_isError (parseDate : String -> Option Int)
    (cronValidate : String -> Option String) (args : CronAddArgs)
    (r : ToolResult)
    (h : cronAddBuildSchedule parseDate cronValidate args = .error r) :
    r.isError = true := by
  unfold cronAddBuildSchedule at h
  dsimp only at h
  repeat' split at h
  all_goals first
    | (cases h; rfl)
    | exact Except.noConfusion h

/-- C7: `cron_add` rejects — an `isError` result and no `service.add`
invocation — every `agentTurn` request that has a truthy `deliver` with a
falsy `channel` or `to`, or that names (supplies a non-empty) channel outside
the closed set {dingtalk, feishu, qq, wecom, webchat, last}, or whose supplied
`timeoutSeconds` lies outside [1, 600]; this holds for every behaviour of the
date parser and cron validator (an invalid schedule is likewise rejected
before the job could be persisted). -/
theorem cronAdd_rejects_invalid_agentTurn
    (parseDate : String -> Option Int) (cronValidate : String -> Option String)
    (args : CronAddArgs)
    (hkind : args.payloadType = some "agentTurn")
    (hbad :
      (args.deliver.getD false = true ∧
        (strTruthy args.channel = false ∨ strTruthy args.«to» = false))
      ∨ (strTruthy args.channel = true ∧
          cronToolValidChannels.contains (args.channel.getD "") = false)
      ∨ (∃ t, args.timeoutSeconds = some t ∧ (t < 1 ∨ t > 600))) :
    (cronAddExecute parseDate cronValidate args).1.isError = true
    ∧ (cronAddExecute parseDate cronValidate args).2 = none := by
  unfold cronAddExecute
  cases hsch : cronAddBuildSchedule parseDate cronValidate args with
  | error r =>
      exact ⟨cronAddBuildSchedule_isError parseDate cronValidate args r hsch, rfl⟩
  | ok schedule =>
      have hpt : (args.payloadType.getD "systemEvent" == "agentTurn") = true := by
        rw [hkind]; rfl
      simp only [hpt, if_true]
      split
      · exact ⟨rfl, rfl⟩
      · split
        · exact ⟨rfl, rfl⟩
        · split
          · exact ⟨rfl, rfl⟩
          · exfalso
            rename_i hc1 hc2 hc3
            rcases hbad with ⟨hdel, hmiss⟩ | ⟨hch, hnotin⟩ | ⟨t, ht, hrange⟩
            · rcases hmiss with h | h <;> simp [hdel, h] at hc1
            · have hmem : args.channel.getD "" ∉ cronToolValidChannels := by
                simpa using hnotin
              simp [hch] at hc2
              exact hmem hc2
            · rcases hrange with h | h <;> simp [ht, h] at hc3

/-- Witness for C7: an `agentTurn` request with `deliver: true` and no `to`
is rejected and nothing reaches `service.add`. -/
theorem cronAdd_rejects_invalid_agentTurn_witness :
    cronAddArgsNoTo.payloadType = some "agentTurn" ∧
    (cronAddArgsNoTo.deliver.getD false = true ∧
      strTruthy cronAddArgsNoTo.«to» = false) ∧
    (cronAddExecute (fun _ => none) (fun _ => none) cronAddArgsNoTo).1.isError = true ∧
    (cronAddExecute (fun _ => none) (fun _ => none) cronAddArgsNoTo).2 = none :=
  ⟨rfl, ⟨rfl, rfl⟩,
    cronAdd_rejects_invalid_agentTurn (fun _ => none) (fun _ => none)
      cronAddArgsNoTo rfl (Or.inl ⟨rfl, Or.inr rfl⟩)⟩

/-- Accepted `cron_update` invocations produce exactly the stored job with
`name` and `enabled` patched (presence-based), everything else unchanged. -/
theorem cronUpdateExecute_some (jobs : List CronJob) (args : CronUpdateArgs)
    (job' : CronJob) (h : (cronUpdateExecute jobs args).2 = some job') :
    ∃ job, jobs.find? (fun j => j.id == args.jobId) = some job ∧
      job' = { job with name := args.name.getD job.name,
                        enabled := args.enabled.getD job.enabled } := by
  unfold cronUpdateExecute at h
  dsimp only at h
  split at h
  · simp at h
  · cases hfind : jobs.find? (fun j => j.id == args.jobId) with
    | none =>
        unfold serviceUpdate at h
        rw [hfind] at h
        simp at h
    | some job =>
        unfold serviceUpdate at h
        rw [hfind] at h
        simp only [Option.some.injEq] at h
        exact ⟨job, rfl, h.symm⟩

/-- Counterexample to C8 as stated: no `cron_update` invocation can change
the `schedule` or `payload` of a stored job — the tool's schema only carries
`jobId`, `name` and `enabled`, so the patch it passes to `service.update`
never touches those fields. -/
theorem cronUpdate_cannot_change_schedule_or_payload :
    ¬ ∃ (jobs : List CronJob) (args : CronUpdateArgs) (job job' : CronJob),
        jobs.find? (fun j => j.id == args.jobId) = some job ∧
        (cronUpdateExecute jobs args).2 = some job' ∧
        (job'.schedule ≠ job.schedule ∨ job'.payload ≠ job.payload) := by
  rintro ⟨jobs, args, job, job', hfind, hsome, hne⟩
  obtain ⟨job0, hfind0, hj'⟩ := cronUpdateExecute_some jobs args job' hsome
  rw [hfind] at hfind0
  cases hfind0
  subst hj'
  rcases hne with h | h <;> exact h rfl

/-- C8 (amended): the `cron_update` tool permits mutating `name` and
`enabled` — for each there is an accepted invocation changing that field on
the stored job — while every accepted invocation leaves `schedule` and
`payload` of the stored job unchanged (the underlying `service.update` of
spec section 4.G also accepts `schedule`/`payload` patches, but the tool's
schema cannot express them). -/
theorem cronUpdate_mutates_name_enabled_only :
    (∃ (jobs : List CronJob) (args : CronUpdateArgs) (job job' : CronJob),
        jobs.find? (fun j => j.id == args.jobId) = some job ∧
        (cronUpdateExecute jobs args).1.isError = false ∧
        (cronUpdateExecute jobs args).2 = some job' ∧ job'.name ≠ job.name)
    ∧ (∃ (jobs : List CronJob) (args : CronUpdateArgs) (job job' : CronJob),
        jobs.find? (fun j => j.id == args.jobId) = some job ∧
        (cronUpdateExecute jobs args).1.isError = false ∧
        (cronUpdateExecute jobs args).2 = some job' ∧ job'.enabled ≠ job.enabled)
    ∧ (∀ (jobs : List CronJob) (args : CronUpdateArgs) (job' : CronJob),
        (cronUpdateExecute jobs args).2 = some job' →
        ∃ job, jobs.find? (fun j => j.id == args.jobId) = some job ∧
          job'.schedule = job.schedule ∧ job'.payload = job.payload) := by
  refine ⟨?_, ?_, ?_⟩
  · refine ⟨[cronUpdateJob0], { jobId := "a", name := some "new" },
      cronUpdateJob0, { cronUpdateJob0 with name := "new" }, ?_, ?_, ?_, ?_⟩
    · rfl
    · rfl
    · rfl
    · decide
  · refine ⟨[cronUpdateJob0], { jobId := "a", enabled := some false },
      cronUpdateJob0, { cronUpdateJob0 with enabled := false }, ?_, ?_, ?_, ?_⟩
    · rfl
    · rfl
    · rfl
    · decide
  · intro jobs args job' h
    obtain ⟨job, hfind, hj'⟩ := cronUpdateExecute_some jobs args job' h
    exact ⟨job, hfind, by rw [hj'], by rw [hj']⟩

/-- Witness for C8 (amended), applying its universal part at a concrete
accepted invocation. -/
theorem cronUpdate_mutates_name_enabled_only_witness :
    (cronUpdateExecute [cronUpdateJob0] { jobId := "a", name := some "new" }).2 =
      some { cronUpdateJob0 with name := "new" } ∧
    ∃ job, ([cronUpdateJob0].find?
        (fun j => j.id == ({ jobId := "a", name := some "new" } : CronUpdateArgs).jobId)) =
          some job ∧
      ({ cronUpdateJob0 with name := "new" } : CronJob).schedule = job.schedule ∧
      ({ cronUpdateJob0 with name := "new" } : CronJob).payload = job.payload :=
  ⟨rfl, cronUpdate_mutates_name_enabled_only.2.2 [cronUpdateJob0]
    { jobId := "a", name := some "new" } { cronUpdateJob0 with name := "new" } rfl⟩

/-- The function `attemptResult` agrees with a returning `deliverMessage`. -/
theorem attemptResult_ok (beh : ChannelBeh) (target : DeliveryTarget)
    (p : DeliveryPayload) (r : DeliveryResult)
    (hdm : deliverMessage beh target p true = .ok r) :
    attemptResult beh target p = r := by
  unfold attemptResult
  rw [hdm]

/-- The function `attemptResult` on a throwing `deliverMessage` is the catch-block
result. -/
theorem attemptResult_error (beh : ChannelBeh) (target : DeliveryTarget)
    (p : DeliveryPayload) (m : String)
    (hdm : deliverMessage beh target p true = .error m) :
    attemptResult beh target p =
      { success := false, channel := target.channel, error := some m } := by
  unfold attemptResult
  rw [hdm]

/-- Loop step: a fired abort signal short-circuits with the synthetic
"Aborted" result and no attempt. -/
theorem deliverMessagesGo_cons_abort (beh : Nat -> ChannelBeh)
    (abortObs : Nat -> Bool) (target : DeliveryTarget) (bestEffort : Bool)
    (i : Nat) (p : DeliveryPayload) (rest : List DeliveryPayload)
    (habort : abortObs i = true) :
    deliverMessagesGo beh abortObs target bestEffort i (p :: rest) =
      ([abortedResult target.channel], []) := by
  simp [deliverMessagesGo, habort]

/-- Loop step: a successful attempt (or best-effort mode) records the attempt
result and continues with the rest. -/
theorem deliverMessagesGo_cons_continue (beh : Nat -> ChannelBeh)
    (abortObs : Nat -> Bool) (target : DeliveryTarget) (bestEffort : Bool)
    (i : Nat) (p : DeliveryPayload) (rest : List DeliveryPayload)
    (habort : abortObs i = false)
    (h : (attemptResult (beh i) target p).success = true ∨ bestEffort = true) :
    deliverMessagesGo beh abortObs target bestEffort i (p :: rest) =
      (attemptResult (beh i) target p ::
        (deliverMessagesGo beh abortObs target bestEffort (i + 1) rest).1,
       p :: (deliverMessagesGo beh abortObs target bestEffort (i + 1) rest).2) := by
  cases hdm : deliverMessage (beh i) target p true with
  | ok r =>
      have ha := attemptResult_ok (beh i) target p r hdm
      rw [ha] at h ⊢
      have hcond : (!r.success && !bestEffort) = false := by
        rcases h with h | h <;> simp [h]
      simp [deliverMessagesGo, habort, hdm, hcond]
  | error m =>
      have ha := attemptResult_error (beh i) target p m hdm
      rw [ha] at h ⊢
      rcases h with h | h
      · simp at h
      · simp [deliverMessagesGo, habort, hdm, h]

/-- Loop step: a failed attempt without best-effort records the failure and
stops. -/
theorem deliverMessagesGo_cons_stop (beh : Nat -> ChannelBeh)
    (abortObs : Nat -> Bool) (target : DeliveryTarget)
    (i : Nat) (p : DeliveryPayload) (rest : List DeliveryPayload)
    (habort : abortObs i = false)
    (hf : (attemptResult (beh i) target p).success = false) :
    deliverMessagesGo beh abortObs target false i (p :: rest) =
      ([attemptResult (beh i) target p], [p]) := by
  cases hdm : deliverMessage (beh i) target p true with
  | ok r =>
      have ha := attemptResult_ok (beh i) target p r hdm
      rw [ha] at hf ⊢
      simp [deliverMessagesGo, habort, hdm, hf]
  | error m =>
      have ha := attemptResult_error (beh i) target p m hdm
      rw [ha] at hf ⊢
      simp [deliverMessagesGo, habort, hdm]

/-- Splitting a length-(m+1) prefix of attempt results at its head. -/
theorem attemptMap_shift (beh : Nat -> ChannelBeh) (target : DeliveryTarget)
    (p : DeliveryPayload) (rest : List DeliveryPayload) (i m : Nat) :
    (List.range (m + 1)).map
        (fun j => attemptResult (beh (i + j)) target ((p :: rest)[j]!)) =
      attemptResult (beh i) target p ::
        (List.range m).map (fun j => attemptResult (beh (i + 1 + j)) target rest[j]!) := by
  rw [List.range_succ_eq_map]
  simp only [List.map_cons, List.map_map]
  congr 1
  apply List.map_congr_left
  intro a ha
  have harith : i + (a + 1) = i + 1 + a := by omega
  simp [Function.comp, harith]

/-- If the abort signal is first observed fired at check `m` (with every
earlier check clear and every earlier attempt allowed to continue), the loop
records the `m` attempt results followed by the single synthetic "Aborted"
result, and attempts exactly the first `m` payloads. -/
theorem deliverMessagesGo_abort_at (beh : Nat -> ChannelBeh)
    (abortObs : Nat -> Bool) (target : DeliveryTarget) (bestEffort : Bool) :
    ∀ (ps : List DeliveryPayload) (i m : Nat), m < ps.length →
      (∀ j, j < m → abortObs (i + j) = false) →
      abortObs (i + m) = true →
      (bestEffort = true ∨
        ∀ j, j < m → (attemptResult (beh (i + j)) target ps[j]!).success = true) →
      deliverMessagesGo beh abortObs target bestEffort i ps =
        ((List.range m).map (fun j => attemptResult (beh (i + j)) target ps[j]!)
            ++ [abortedResult target.channel],
         ps.take m) := by
  intro ps
  induction ps with
  | nil =>
      intro i m hm
      simp at hm
  | cons p rest ih =>
      intro i m hm hpre hfire hreach
      cases m with
      | zero =>
          have h0 : abortObs i = true := by simpa using hfire
          simp [deliverMessagesGo_cons_abort beh abortObs target bestEffort i p rest h0]
      | succ m' =>
          have h0 : abortObs i = false := by
            have := hpre 0 (Nat.succ_pos m')
            simpa using this
          have hcont : (attemptResult (beh i) target p).success = true
              ∨ bestEffort = true := by
            rcases hreach with h | h
            · exact Or.inr h
            · left
              have := h 0 (Nat.succ_pos m')
              simpa using this
          rw [deliverMessagesGo_cons_continue beh abortObs target bestEffort i p rest h0 hcont]
          have ihe := ih (i + 1) m' (by simpa using hm)
            (fun j hj => by
              have := hpre (j + 1) (by omega)
              simpa [Nat.add_assoc, Nat.add_comm 1 j] using this)
            (by
              have : i + 1 + m' = i + (m' + 1) := by omega
              rw [this]
              exact hfire)
            (by
              rcases hreach with h | h
              · exact Or.inl h
              · right
                intro j hj
                have := h (j + 1) (by omega)
                have harith : i + (j + 1) = i + 1 + j := by omega
                rw [harith] at this
                simpa using this)
          rw [ihe]
          refine Prod.ext ?_ rfl
          rw [attemptMap_shift]
          simp [List.cons_append]

/-- With the abort signal never fired, the loop attempts a prefix of the
payloads in order: for some `n` bounded by the payload count, the results are
exactly the per-index attempt results of the first `n` payloads and the
attempted list is that prefix; `n` is everything in best-effort mode, and
otherwise the attempts before the last all succeeded and a stop before the
end means the last recorded attempt failed. -/
theorem deliverMessagesGo_noabort (beh : Nat -> ChannelBeh)
    (abortObs : Nat -> Bool) (target : DeliveryTarget) (bestEffort : Bool)
    (habort : ∀ i, abortObs i = false) :
    ∀ (ps : List DeliveryPayload) (i : Nat), ∃ n, n ≤ ps.length ∧
      deliverMessagesGo beh abortObs target bestEffort i ps =
        ((List.range n).map (fun j => attemptResult (beh (i + j)) target ps[j]!),
         ps.take n)
      ∧ (bestEffort = true → n = ps.length)
      ∧ (bestEffort = false → ∀ j, j + 1 < n →
          (attemptResult (beh (i + j)) target ps[j]!).success = true)
      ∧ (n < ps.length → 1 ≤ n ∧ bestEffort = false ∧
          (attemptResult (beh (i + (n - 1))) target ps[n - 1]!).success = false) := by
  intro ps
  induction ps with
  | nil =>
      intro i
      exact ⟨0, by simp [deliverMessagesGo]⟩
  | cons p rest ih =>
      intro i
      by_cases hs : (attemptResult (beh i) target p).success = true ∨ bestEffort = true
      · obtain ⟨n, hn, heq, hbe, hpref, hlast⟩ := ih (i + 1)
        refine ⟨n + 1, by simpa using hn, ?_, ?_, ?_, ?_⟩
        · rw [deliverMessagesGo_cons_continue beh abortObs target bestEffort i p rest
            (habort i) hs, heq, attemptMap_shift]
          rfl
        · intro h
          simp [hbe h]
        · intro hbef j hj
          cases j with
          | zero =>
              rcases hs with h | h
              · simpa using h
              · simp [h] at hbef
          | succ j' =>
              have hj' := hpref hbef j' (by omega)
              have harith : i + 1 + j' = i + (j' + 1) := by omega
              rw [harith] at hj'
              simpa using hj'
        · intro hlt
          have hlt' : n < rest.length := by simpa using hlt
          obtain ⟨h1, h2, h3⟩ := hlast hlt'
          refine ⟨by omega, h2, ?_⟩
          have harith : i + 1 + (n - 1) = i + (n + 1 - 1) := by omega
          rw [harith] at h3
          have hidx : rest[n - 1]! = (p :: rest)[n + 1 - 1]! := by
            have hn1 : n + 1 - 1 = (n - 1) + 1 := by omega
            rw [hn1]
            simp
          rw [hidx] at h3
          exact h3
      · push_neg at hs
        obtain ⟨hs1t, hs2t⟩ := hs
        have hs1 : (attemptResult (beh i) target p).success = false := by
          simpa using hs1t
        have hs2 : bestEffort = false := by simpa using hs2t
        subst hs2
        refine ⟨1, by simp, ?_, ?_, ?_, ?_⟩
        · rw [deliverMessagesGo_cons_stop beh abortObs target i p rest (habort i) hs1]
          have h1 : List.range 1 = [0] := rfl
          rw [h1]
          simp
        · intro h
          simp at h
        · intro _ j hj
          omega
        · intro _
          exact ⟨Nat.le_refl 1, rfl, by simpa using hs1⟩

/-- Without best-effort, every result before the last records a successful
attempt (the loop stops at the first failure, and an abort also stops the
loop). -/
theorem deliverMessagesGo_prefix_success (beh : Nat -> ChannelBeh)
    (abortObs : Nat -> Bool) (target : DeliveryTarget) :
    ∀ (ps : List DeliveryPayload) (i j : Nat),
      j + 1 < (deliverMessagesGo beh abortObs target false i ps).1.length →
      ((deliverMessagesGo beh abortObs target false i ps).1[j]!).success = true := by
  intro ps
  induction ps with
  | nil =>
      intro i j h
      simp [deliverMessagesGo] at h
  | cons p rest ih =>
      intro i j h
      by_cases habort : abortObs i = true
      · rw [deliverMessagesGo_cons_abort beh abortObs target false i p rest habort] at h
        simp at h
      · rw [Bool.not_eq_true] at habort
        by_cases hsucc : (attemptResult (beh i) target p).success = true
        · rw [deliverMessagesGo_cons_continue beh abortObs target false i p rest habort
            (Or.inl hsucc)] at h ⊢
          cases j with
          | zero => simpa using hsucc
          | succ j' =>
              have hlen : j' + 1 <
                  (deliverMessagesGo beh abortObs target false (i + 1) rest).1.length := by
                simpa using h
              have := ih (i + 1) j' hlen
              simpa using this
        · rw [Bool.not_eq_true] at hsucc
          rw [deliverMessagesGo_cons_stop beh abortObs target i p rest habort hsucc] at h
          simp at h

/-- C2: if the abort signal is clear at the first k-1 checks (whose attempts
all continue: they succeed, or best-effort is on) and has fired at check k,
`deliverMessages` returns the k-1 attempt results followed by exactly one
synthetic failed "Aborted" result: the list has length k, its last (index
k-1) entry is the "Aborted" failure, and only the first k-1 payloads were
attempted. -/
theorem deliverMessages_abort_semantics (beh : Nat -> ChannelBeh)
    (abortObs : Nat -> Bool) (target : DeliveryTarget)
    (payloads : List DeliveryPayload) (bestEffort : Bool) (k : Nat)
    (hk1 : 1 ≤ k) (hk2 : k ≤ payloads.length)
    (hpre : ∀ i, i < k - 1 → abortObs i = false)
    (hfire : abortObs (k - 1) = true)
    (hreach : bestEffort = true ∨
      ∀ i, i < k - 1 → (attemptResult (beh i) target payloads[i]!).success = true) :
    (deliverMessages beh abortObs target payloads bestEffort).1 =
      (List.range (k - 1)).map (fun i => attemptResult (beh i) target payloads[i]!)
        ++ [abortedResult target.channel]
    ∧ (deliverMessages beh abortObs target payloads bestEffort).1.length = k
    ∧ (deliverMessages beh abortObs target payloads bestEffort).1.getLast?
        = some (abortedResult target.channel)
    ∧ (deliverMessages beh abortObs target payloads bestEffort).2
        = payloads.take (k - 1) := by
  have h := deliverMessagesGo_abort_at beh abortObs target bestEffort payloads 0 (k - 1)
    (by omega)
    (fun j hj => by simpa using hpre j hj)
    (by simpa using hfire)
    (by
      rcases hreach with h | h
      · exact Or.inl h
      · right
        intro j hj
        simpa using h j hj)
  have hms : deliverMessages beh abortObs target payloads bestEffort =
      ((List.range (k - 1)).map (fun i => attemptResult (beh i) target payloads[i]!)
        ++ [abortedResult target.channel], payloads.take (k - 1)) := by
    unfold deliverMessages
    simpa using h
  refine ⟨by rw [hms], ?_, by rw [hms]; simp, by rw [hms]⟩
  rw [hms]
  simp
  omega

/-- Witness for C2: scenario S5 with k = 2 — abort after one successful send
yields two results, the last being the "Aborted" failure. -/
theorem deliverMessages_abort_semantics_witness :
    (∀ i, i < 2 - 1 → abortAfterOne i = false) ∧ abortAfterOne (2 - 1) = true ∧
    (deliverMessages behOk2 abortAfterOne { channel := "dingtalk", «to» := "user123" }
        [{ text := "Message 1" }, { text := "Message 2" }] false).1.length = 2 ∧
    (deliverMessages behOk2 abortAfterOne { channel := "dingtalk", «to» := "user123" }
        [{ text := "Message 1" }, { text := "Message 2" }] false).1.getLast?
      = some (abortedResult "dingtalk") := by
  have h := deliverMessages_abort_semantics behOk2 abortAfterOne
    { channel := "dingtalk", «to» := "user123" }
    [{ text := "Message 1" }, { text := "Message 2" }] false 2
    (by omega) (by decide)
    (fun i hi => by
      have hz : i = 0 := by omega
      subst hz
      rfl)
    rfl
    (Or.inr (fun i hi => by
      have hz : i = 0 := by omega
      subst hz
      rfl))
  exact ⟨fun i hi => by
      have hz : i = 0 := by omega
      subst hz
      rfl,
    rfl, h.2.1, h.2.2.1⟩

/-- C3: with no abort, `deliverMessages` attempts a prefix of the payloads
strictly in the order supplied (the attempted list is `take n` of the input
and result index i is the attempt result of payload i, reflecting that the
result of payload i is recorded before payload i+1 is attempted); with
`bestEffort = false` all results before the last record successes and a
shorter-than-input result list ends in a failed result (early stop at the
first failure); with `bestEffort = true` the result count equals the payload
count. -/
theorem deliverMessages_sequential (beh : Nat -> ChannelBeh)
    (abortObs : Nat -> Bool) (target : DeliveryTarget)
    (payloads : List DeliveryPayload) (bestEffort : Bool)
    (habort : ∀ i, abortObs i = false) :
    ((deliverMessages beh abortObs target payloads bestEffort).1.length ≤ payloads.length
      ∧ (deliverMessages beh abortObs target payloads bestEffort).2
          = payloads.take (deliverMessages beh abortObs target payloads bestEffort).1.length
      ∧ (deliverMessages beh abortObs target payloads bestEffort).1
          = (List.range (deliverMessages beh abortObs target payloads bestEffort).1.length).map
              (fun i => attemptResult (beh i) target payloads[i]!))
    ∧ (bestEffort = false → ∀ j,
        j + 1 < (deliverMessages beh abortObs target payloads bestEffort).1.length →
        (attemptResult (beh j) target payloads[j]!).success = true)
    ∧ (bestEffort = false →
        (deliverMessages beh abortObs target payloads bestEffort).1.length < payloads.length →
        1 ≤ (deliverMessages beh abortObs target payloads bestEffort).1.length
        ∧ (attemptResult
            (beh ((deliverMessages beh abortObs target payloads bestEffort).1.length - 1))
            target
            payloads[(deliverMessages beh abortObs target payloads bestEffort).1.length - 1]!).success
          = false)
    ∧ (bestEffort = true →
        (deliverMessages beh abortObs target payloads bestEffort).1.length
          = payloads.length) := by
  obtain ⟨n, hn, heq, hbe, hpref, hlast⟩ :=
    deliverMessagesGo_noabort beh abortObs target bestEffort habort payloads 0
  have heq' : deliverMessages beh abortObs target payloads bestEffort =
      ((List.range n).map (fun j => attemptResult (beh j) target payloads[j]!),
       payloads.take n) := by
    unfold deliverMessages
    simpa using heq
  rw [heq']
  simp only [List.length_map, List.length_range]
  refine ⟨⟨hn, by simp, by simp⟩, ?_, ?_, ?_⟩
  · intro hbf j hj
    have hp := hpref hbf j hj
    simpa using hp
  · intro hbf hlt
    obtain ⟨h1, _, h3⟩ := hlast hlt
    exact ⟨h1, by simpa using h3⟩
  · exact hbe

/-- Witness for C3 at a concrete three-payload batch with no abort. -/
theorem deliverMessages_sequential_witness :
    (∀ i, abortNever3 i = false) ∧
    (deliverMessages behFail3 abortNever3 { channel := "dingtalk", «to» := "user123" }
        [{ text := "Message 1" }, { text := "Message 2" }, { text := "Message 3" }]
        false).1.length ≤ 3 ∧
    (deliverMessages behFail3 abortNever3 { channel := "dingtalk", «to» := "user123" }
        [{ text := "Message 1" }, { text := "Message 2" }, { text := "Message 3" }]
        false).2 =
      ([{ text := "Message 1" }, { text := "Message 2" }, { text := "Message 3" }] :
        List DeliveryPayload).take
        (deliverMessages behFail3 abortNever3 { channel := "dingtalk", «to» := "user123" }
          [{ text := "Message 1" }, { text := "Message 2" }, { text := "Message 3" }]
          false).1.length := by
  have h := deliverMessages_sequential behFail3 abortNever3
    { channel := "dingtalk", «to» := "user123" }
    [{ text := "Message 1" }, { text := "Message 2" }, { text := "Message 3" }]
    false (fun i => rfl)
  exact ⟨fun i => rfl, h.1.1, h.1.2.1⟩

/-- C4: `deliverMessage` (deliverOne) failure modes. A missing channel
throws the "Channel not found" error when not best-effort and otherwise
returns a failed result carrying it; a send reported as `success: false`
throws its error when not best-effort and otherwise returns a failed result
carrying it. -/
theorem deliverMessage_failure_modes (target : DeliveryTarget)
    (p : DeliveryPayload) :
    (deliverMessage .missing target p false =
        .error ("Channel not found: " ++ target.channel))
    ∧ (deliverMessage .missing target p true =
        .ok { success := false, channel := target.channel,
              error := some ("Channel not found: " ++ target.channel) })
    ∧ (∀ (r : SendResult) (e : String), r.success = false → r.error = some e →
        deliverMessage (.sends r) target p false = .error e)
    ∧ (∀ (r : SendResult), r.success = false →
        deliverMessage (.sends r) target p true =
          .ok { success := false, channel := target.channel, error := r.error }) := by
  refine ⟨rfl, rfl, ?_, ?_⟩
  · intro r e hs he
    simp [deliverMessage, hs, he]
  · intro r hs
    simp [deliverMessage, hs]

/-- Witness for C4: a failed send in best-effort mode surfaces as a failed
result carrying "Network error". -/
theorem deliverMessage_failure_modes_witness :
    ({ success := false, error := some "Network error" } : SendResult).success
      = false ∧
    deliverMessage (.sends { success := false, error := some "Network error" })
      { channel := "dingtalk", «to» := "user123" } { text := "Hello" } true =
      .ok { success := false, channel := "dingtalk",
            error := some "Network error" } := by
  refine ⟨rfl, ?_⟩
  exact (deliverMessage_failure_modes { channel := "dingtalk", «to» := "user123" }
    { text := "Hello" }).2.2.2 { success := false, error := some "Network error" } rfl

/-- C10: the delivery fabric never lets an exception escape: every call of
`deliverMessage` with `bestEffort: true` — which is how `deliverMessages`
(and hence `deliverOutboundPayloads`) performs every underlying attempt —
returns a result instead of throwing, for every registry/channel behaviour
including lookup misses, failed sends and adapter throws; consequently a
failure surfaces as a returned failed result, and with `bestEffort = false`
the batch stops right after it (every result before the last is a
success). -/
theorem delivery_never_throws :
    (∀ (beh : ChannelBeh) (target : DeliveryTarget) (p : DeliveryPayload),
        (deliverMessage beh target p true).isOk = true)
    ∧ (∀ (beh : Nat -> ChannelBeh) (abortObs : Nat -> Bool)
        (channel chat : String) (accountId : Option String)
        (payloads : List DeliveryPayload) (j : Nat),
        j + 1 < (deliverOutboundPayloads beh abortObs channel chat accountId
          payloads false).1.length →
        ((deliverOutboundPayloads beh abortObs channel chat accountId
          payloads false).1[j]!).success = true) := by
  constructor
  · intro beh target p
    cases beh with
    | missing => rfl
    | sends r => cases hr : r.success <;> simp [deliverMessage, hr] <;> rfl
    | throws m => rfl
  · intro beh abortObs channel chat accountId payloads j h
    by_cases hemp : payloads.length = 0
    · rw [deliverOutboundPayloads, if_pos hemp] at h
      simp at h
    · rw [deliverOutboundPayloads, if_neg hemp] at h ⊢
      exact deliverMessagesGo_prefix_success beh abortObs
        { channel := channel, «to» := chat, accountId := accountId } payloads 0 j h

/-- Witness for C10: a missing channel under best-effort returns (does not
throw), and in a concrete two-payload batch the non-last result is a
success. -/
theorem delivery_never_throws_witness :
    (deliverMessage .missing { channel := "qq", «to» := "u" } { text := "x" }
      true).isOk = true ∧
    0 + 1 < (deliverOutboundPayloads behOk10 abortNever10 "dingtalk" "user123"
      none [{ text := "a" }, { text := "b" }] false).1.length ∧
    ((deliverOutboundPayloads behOk10 abortNever10 "dingtalk" "user123"
      none [{ text := "a" }, { text := "b" }] false).1[0]!).success = true := by
  refine ⟨delivery_never_throws.1 .missing { channel := "qq", «to» := "u" }
    { text := "x" }, by decide, ?_⟩
  exact delivery_never_throws.2 behOk10 abortNever10 "dingtalk" "user123" none
    [{ text := "a" }, { text := "b" }] 0 (by decide)

end Mozi
